import Mathlib

/-!
Shallow embedding of `src/vulkano-test/src/main.rs` — a winit/vulkano frame
loop that clears the window to blue every redraw tick.

The program's core is the `window_event` handler of `App`
(`impl ApplicationHandler for App`, lines 57–309).  The handler's calls into
vulkano and winit (swapchain recreation, `acquire_next_image`, command-buffer
building, `then_signal_fence_and_flush`) are external library calls; their
results on a given tick are modelled as oracle inputs (`RedrawInput`), and the
handler itself is a pure function on the embedded `App` state.

GPU futures (`previous_frame_end : Option<Box<dyn GpuFuture>>`) are tracked by
provenance: `Token.now` is `sync::now(device)` (the always-already-satisfied
fallback), `Token.chain t` is the fence-and-flush future produced by the tick
numbered `t`.  The swapchain is tracked by a generation counter plus its
extent; each image in `images` carries the generation of the swapchain that
created it, so that stale-binding questions are expressible.

Rust panics (`expect`/`panic!`/index-out-of-bounds) abort the process; they are
modelled as dedicated `Outcome` values, with the state returned alongside never
observed by further ticks.  The `.unwrap()` calls on infallible-by-construction
builder calls (command-buffer allocator, render-pass creation, framebuffer
creation, `builder.build()`, `then_execute`) are construction panics that touch
no loop state and are not given oracle knobs.
-/

namespace VulkanoTest

/-- A window extent, the `[u32; 2]` obtained from `window.inner_size()`
(line 186): width and height. -/
structure Extent where
  w : Nat
  h : Nat
deriving DecidableEq, Repr

/-- The `previous_frame_end` GPU future, tracked by provenance.
`now` is `sync::now(device).boxed()` (installed in `resumed`, line 169, and on
the two failed-flush branches, lines 298 and 302); `chain t` is the future
returned by `then_signal_fence_and_flush` on the redraw tick numbered `t`
(line 294). -/
inductive Token where
  | now : Token
  | chain : Nat → Token
deriving DecidableEq, Repr

/-- The fields of the Rust `App` struct (lines 46–55) that the redraw logic
reads or writes.  The swapchain (`swapchain: Option<Arc<Swapchain>>`) is
modelled by a generation counter and its extent; `images` holds, for each
entry of `images: Option<Vec<Arc<Image>>>`, the generation of the swapchain
that created it. -/
structure App where
  swapchainGen : Nat
  swapchainExtent : Extent
  images : List Nat
  previous_frame_end : Token
  recreate_swapchain : Bool
deriving DecidableEq, Repr

/-- Result of `acquire_next_image` (line 207) as matched by the handler:
`Ok((image_index, suboptimal, acquire_future))`, the
`Validated::Error(VulkanError::OutOfDate)` case, or any other error
(line 213's `panic!`). -/
inductive AcquireResult where
  | ok (image_index : Nat) (suboptimal : Bool)
  | outOfDate
  | otherErr
deriving DecidableEq, Repr

/-- Result of `then_signal_fence_and_flush` as matched at lines 292–304:
`Ok`, `Validated::Error(VulkanError::OutOfDate)`, or any other error. -/
inductive FlushResult where
  | ok
  | outOfDate
  | otherErr
deriving DecidableEq, Repr

/-- Oracle inputs for one `RedrawRequested` tick: the window's current inner
size, and the results the external vulkano calls would return on this tick.
`rebuildOk = false` models `Swapchain::recreate` failing (the `.expect` at
line 199 panics); on success the provider returns a new swapchain whose
extent and image count are `rebuildExtent` and `rebuildNumImages` (the
provider is external — spec §6 `recreate(old_state, new_extent) ->
SwapchainState` — so its resulting state is an input, not computed here). -/
structure RedrawInput where
  windowExtent : Extent
  rebuildOk : Bool
  rebuildExtent : Extent
  rebuildNumImages : Nat
  acquire : AcquireResult
  flush : FlushResult
deriving DecidableEq, Repr

/-- An RGBA clear color; the float literals of line 220 are exact. -/
structure ClearColor where
  r : ℚ
  g : ℚ
  b : ℚ
  a : ℚ
deriving DecidableEq, Repr

/-- Line 220: `let clear_values = vec![Some([0.0, 0.0, 1.0, 1.0].into())];` -/
def clear_values : List (Option ClearColor) :=
  [some { r := 0, g := 0, b := 1, a := 1 }]

/-- Attachment load operation of the render pass. -/
inductive LoadOp where
  | clear
  | load
deriving DecidableEq, Repr

/-- Attachment store operation of the render pass. -/
inductive StoreOp where
  | store
  | dontCare
deriving DecidableEq, Repr

/-- Description of a render-pass color attachment. -/
structure AttachmentDesc where
  loadOp : LoadOp
  storeOp : StoreOp
  samples : Nat
deriving DecidableEq, Repr

/-- The single color attachment declared by `single_pass_renderpass!`
(lines 229–244): `samples: 1, load_op: Clear, store_op: Store`. -/
def colorAttachment : AttachmentDesc :=
  { loadOp := LoadOp.clear, storeOp := StoreOp.store, samples := 1 }

/-- A command recorded into the primary command buffer. -/
inductive Cmd where
  | beginRenderPass (clearValues : List (Option ClearColor)) (framebufferIndex : Nat)
  | endRenderPass
deriving DecidableEq, Repr

/-- The full command sequence recorded by the builder (lines 261–276):
`begin_render_pass` with `clear_values` on `framebuffers[image_index]`,
then `end_render_pass` — nothing else. -/
def recordedCommands (image_index : Nat) : List Cmd :=
  [Cmd.beginRenderPass clear_values image_index, Cmd.endRenderPass]

/-- A submission that reached the queue via `then_execute` (line 284): the
acquired image index, the generation tag of the image that the bound
framebuffer `framebuffers[image_index]` (line 266) was built from, and the
commands in the command buffer. -/
structure Submission where
  image_index : Nat
  imageGen : Nat
  commands : List Cmd
deriving DecidableEq, Repr

/-- How a `RedrawRequested` tick ends.  The `panic` outcomes abort the Rust
process (`expect` at line 199, `panic!` at line 213, index-out-of-bounds at
line 266); the others return from the handler normally and the loop goes on. -/
inductive Outcome where
  | skipZero
  | panicRebuild
  | retryAcquire
  | panicAcquire
  | panicBuild
  | flushed
  | flushOutOfDate
  | flushErr
deriving DecidableEq, Repr

/-- Outcomes that abort the process (a Rust panic). -/
def Outcome.fatal : Outcome → Bool
  | Outcome.panicRebuild => true
  | Outcome.panicAcquire => true
  | Outcome.panicBuild => true
  | _ => false

/-- Everything observable about one `RedrawRequested` tick: the state left
behind, how the tick ended, whether the swapchain was rebuilt, whether
`acquire_next_image` was called, and the submission (if any) that reached the
queue. -/
structure RedrawResult where
  state : App
  outcome : Outcome
  didRebuild : Bool
  acquireCalled : Bool
  recorded : Option Submission
deriving DecidableEq, Repr

/-- Lines 193–204: if `recreate_swapchain` is set, call `Swapchain::recreate`
at the window's current extent, replace `swapchain` and `images` with the
provider's results, and clear the flag.  `none` models the `.expect` panic on
a recreation error.  New images carry the new generation.  Note the clear at
line 203 is unconditional: nothing compares the rebuilt extent with the
window's extent. -/
def rebuildStep (s : App) (inp : RedrawInput) : Option (App × Bool) :=
  if s.recreate_swapchain then
    if inp.rebuildOk then
      some ({ s with
                swapchainGen := s.swapchainGen + 1,
                swapchainExtent := inp.rebuildExtent,
                images := List.replicate inp.rebuildNumImages (s.swapchainGen + 1),
                recreate_swapchain := false }, true)
    else none
  else some (s, false)

/-- Lines 292–304: the three-way match on the result of
`then_signal_fence_and_flush`.  `s2` is the app state after the suboptimal
check and `sub` the submission that reached the queue via `then_execute`.
On `Ok`, the chain's future becomes the held token (line 294); on `OutOfDate`,
the rebuild flag is raised and the fallback `sync::now` installed
(lines 297–298); on any other error, a diagnostic is printed and the fallback
installed (lines 301–302) — the handler returns normally in all three. -/
def flushPhase (n : Nat) (s2 : App) (dr : Bool) (sub : Submission)
    (fl : FlushResult) : RedrawResult :=
  match fl with
  | FlushResult.ok =>
      { state := { s2 with previous_frame_end := Token.chain n },
        outcome := Outcome.flushed, didRebuild := dr, acquireCalled := true,
        recorded := some sub }
  | FlushResult.outOfDate =>
      { state := { s2 with recreate_swapchain := true,
                           previous_frame_end := Token.now },
        outcome := Outcome.flushOutOfDate, didRebuild := dr,
        acquireCalled := true, recorded := some sub }
  | FlushResult.otherErr =>
      { state := { s2 with previous_frame_end := Token.now },
        outcome := Outcome.flushErr, didRebuild := dr, acquireCalled := true,
        recorded := some sub }

/-- Lines 206–304: `acquire_next_image` and its match (206–214), the
suboptimal flag (216–218), command recording and submission (220–290) —
the framebuffer is `framebuffers[image_index]` built from the current
`images` (246–266), panicking if the index is out of bounds — and the flush
match.  `s1` is the post-rebuild state, `dr` whether this tick rebuilt. -/
def acquirePhase (n : Nat) (s1 : App) (dr : Bool) (inp : RedrawInput) :
    RedrawResult :=
  match inp.acquire with
  | AcquireResult.outOfDate =>
      { state := { s1 with recreate_swapchain := true },
        outcome := Outcome.retryAcquire, didRebuild := dr,
        acquireCalled := true, recorded := none }
  | AcquireResult.otherErr =>
      { state := s1, outcome := Outcome.panicAcquire, didRebuild := dr,
        acquireCalled := true, recorded := none }
  | AcquireResult.ok image_index suboptimal =>
      let s2 := if suboptimal then { s1 with recreate_swapchain := true } else s1
      if image_index < s2.images.length then
        flushPhase n s2 dr
          { image_index := image_index,
            imageGen := s2.images.getD image_index 0,
            commands := recordedCommands image_index }
          inp.flush
      else
        { state := s2, outcome := Outcome.panicBuild, didRebuild := dr,
          acquireCalled := true, recorded := none }

/-- The `WindowEvent::RedrawRequested` arm (lines 185–305), numbered `n` so
the future it produces can be identified.  In source order: the zero-extent
guard (186–189), `cleanup_finished` on the held future (191; reclaims internal
resources, not an observable state change here), the conditional rebuild
(193–204), then acquisition, recording, submission and the flush match
(206–304). -/
def redraw (n : Nat) (s : App) (inp : RedrawInput) : RedrawResult :=
  if inp.windowExtent.w = 0 ∨ inp.windowExtent.h = 0 then
    { state := s, outcome := Outcome.skipZero, didRebuild := false,
      acquireCalled := false, recorded := none }
  else
    match rebuildStep s inp with
    | none =>
        { state := s, outcome := Outcome.panicRebuild, didRebuild := false,
          acquireCalled := false, recorded := none }
    | some (s1, dr) => acquirePhase n s1 dr inp

/-- A `WindowEvent` as matched at lines 178–307; `redrawRequested` carries the
tick's oracle inputs. -/
inductive WEvent where
  | closeRequested
  | resized
  | redrawRequested (inp : RedrawInput)
  | other
deriving DecidableEq, Repr

/-- The `window_event` handler (lines 172–308) as a state transformer:
`CloseRequested` exits the loop (state untouched), `Resized` sets
`recreate_swapchain` (line 183), `RedrawRequested` runs the redraw tick, and
every other event does nothing (line 306). -/
def window_event (n : Nat) (s : App) (ev : WEvent) : App :=
  match ev with
  | WEvent.closeRequested => s
  | WEvent.resized => { s with recreate_swapchain := true }
  | WEvent.redrawRequested inp => (redraw n s inp).state
  | WEvent.other => s

/-- The `App` state right after `resumed` (lines 58–170): a fresh swapchain
(generation 0) at the window's extent with its images,
`previous_frame_end = sync::now` (line 169), and `recreate_swapchain = false`
carried over from `main` (line 322). -/
def resumedApp (extent : Extent) (numImages : Nat) : App :=
  { swapchainGen := 0, swapchainExtent := extent,
    images := List.replicate numImages 0,
    previous_frame_end := Token.now, recreate_swapchain := false }

/-- Consecutive redraw ticks, numbered from `n`. -/
def run (s : App) (n : Nat) : List RedrawInput → App
  | [] => s
  | inp :: rest => run (redraw n s inp).state (n + 1) rest

/-- A tick with no resize and no induced failures: nonzero window extent, a
successful non-suboptimal acquisition of an in-range image, and a successful
flush. -/
def goodTick (numImages : Nat) (inp : RedrawInput) : Prop :=
  inp.windowExtent.w ≠ 0 ∧ inp.windowExtent.h ≠ 0 ∧ inp.flush = FlushResult.ok ∧
    ∃ i, i < numImages ∧ inp.acquire = AcquireResult.ok i false

/-- Every stored image belongs to the current swapchain generation (the
`images` vector is always the one returned together with the current
`swapchain`, lines 162–163 and 201–202). -/
@[reducible] def imagesInv (s : App) : Prop :=
  ∀ g ∈ s.images, g = s.swapchainGen

/-! ### Concrete states and inputs used by counterexamples and witnesses -/

/-- A resumed app with extent 800×600 and two swapchain images. -/
def app0 : App := resumedApp ⟨800, 600⟩ 2

/-- A nonzero-extent tick whose acquire succeeds on image 0 (not suboptimal)
and whose flush returns `fl`. -/
def okInput (fl : FlushResult) : RedrawInput :=
  { windowExtent := ⟨800, 600⟩, rebuildOk := true, rebuildExtent := ⟨800, 600⟩,
    rebuildNumImages := 2, acquire := AcquireResult.ok 0 false, flush := fl }

/-- An app holding the chain token produced by tick 3, rebuild flag clear. -/
def appChain3 : App := { app0 with previous_frame_end := Token.chain 3 }

/-- A nonzero-extent tick whose acquire returns `OutOfDate`. -/
def acqOODInput : RedrawInput :=
  { okInput FlushResult.ok with acquire := AcquireResult.outOfDate }

/-- An app with a rebuild pending at a stored extent of 800×600. -/
def c3App : App :=
  { swapchainGen := 0, swapchainExtent := ⟨800, 600⟩, images := [0, 0],
    previous_frame_end := Token.now, recreate_swapchain := true }

/-- A tick on which the provider's rebuilt swapchain comes out at 640×480
while the window is at 800×600, and everything else succeeds. -/
def c3Input : RedrawInput :=
  { windowExtent := ⟨800, 600⟩, rebuildOk := true, rebuildExtent := ⟨640, 480⟩,
    rebuildNumImages := 2, acquire := AcquireResult.ok 0 false, flush := FlushResult.ok }

/-- A nonzero-extent tick whose acquire succeeds on image 0 with
`suboptimal = true`, and whose flush succeeds. -/
def subOptInput : RedrawInput :=
  { okInput FlushResult.ok with acquire := AcquireResult.ok 0 true }

/-! ### Helper lemmas -/

theorem recorded_shape (n : Nat) (s : App) (inp : RedrawInput) (sub : Submission)
    (h : (redraw n s inp).recorded = some sub) :
    sub.commands = recordedCommands sub.image_index := by
  unfold redraw acquirePhase flushPhase at h
  repeat' split at h
  all_goals simp [apply_ite RedrawResult.recorded, Option.ite_none_right_eq_some] at h
  all_goals try obtain ⟨-, h⟩ := h
  all_goals subst h
  all_goals rfl

/-! ### Claims -/

/-- C5: on a tick whose window extent has a zero dimension, the handler
returns immediately: the state (token and rebuild flag included) is unchanged,
no rebuild happens, `acquire_next_image` is never called, and no submission —
hence no recording and no present — is made. -/
theorem zero_extent_tick_is_noop (n : Nat) (s : App) (inp : RedrawInput)
    (h : inp.windowExtent.w = 0 ∨ inp.windowExtent.h = 0) :
    redraw n s inp =
      { state := s, outcome := Outcome.skipZero, didRebuild := false,
        acquireCalled := false, recorded := none } := by
  unfold redraw
  rw [if_pos h]

/-- Witness for C5 at a concrete zero-width extent. -/
theorem zero_extent_tick_is_noop_witness :
    (((⟨0, 600⟩ : Extent).w = 0 ∨ (⟨0, 600⟩ : Extent).h = 0) ∧
      redraw 3 app0 { okInput FlushResult.ok with windowExtent := ⟨0, 600⟩ } =
        { state := app0, outcome := Outcome.skipZero, didRebuild := false,
          acquireCalled := false, recorded := none }) :=
  ⟨Or.inl rfl, zero_extent_tick_is_noop 3 app0 _ (Or.inl rfl)⟩

/-- C10: every submission that reaches the queue records exactly one
begin-render-pass that clears the bound framebuffer to opaque blue
`[0.0, 0.0, 1.0, 1.0]` followed by end-render-pass and nothing else —
independent of the tick number, the extent and all prior state — on an
attachment that is cleared on load over its whole area and stored. -/
theorem submission_clears_blue (n : Nat) (s : App) (inp : RedrawInput)
    (sub : Submission) (h : (redraw n s inp).recorded = some sub) :
    sub.commands =
      [Cmd.beginRenderPass [some { r := 0, g := 0, b := 1, a := 1 }] sub.image_index,
       Cmd.endRenderPass] ∧
    colorAttachment.loadOp = LoadOp.clear ∧
    colorAttachment.storeOp = StoreOp.store :=
  ⟨recorded_shape n s inp sub h, rfl, rfl⟩

/-- Witness for C10 on a concrete successful tick. -/
theorem submission_clears_blue_witness :
    (redraw 0 app0 (okInput FlushResult.ok)).recorded =
        some { image_index := 0, imageGen := 0, commands := recordedCommands 0 } ∧
    (({ image_index := 0, imageGen := 0, commands := recordedCommands 0 } : Submission).commands =
      [Cmd.beginRenderPass [some { r := 0, g := 0, b := 1, a := 1 }] 0, Cmd.endRenderPass] ∧
     colorAttachment.loadOp = LoadOp.clear ∧
     colorAttachment.storeOp = StoreOp.store) :=
  ⟨rfl, submission_clears_blue 0 app0 (okInput FlushResult.ok)
    { image_index := 0, imageGen := 0, commands := recordedCommands 0 } rfl⟩

/-- C4: if the execute–present–flush chain fails with `OutOfDate` on tick `n`,
the token held entering tick `n+1` is the always-satisfied fallback
(`sync::now`), not a token referencing the abandoned submission, and a rebuild
is marked pending. -/
theorem flush_out_of_date_installs_fallback (n : Nat) (s : App) (inp : RedrawInput)
    (i : Nat) (b : Bool)
    (hflag : s.recreate_swapchain = false)
    (hw : inp.windowExtent.w ≠ 0) (hh : inp.windowExtent.h ≠ 0)
    (hacq : inp.acquire = AcquireResult.ok i b)
    (hi : i < s.images.length)
    (hflush : inp.flush = FlushResult.outOfDate) :
    (redraw n s inp).state.previous_frame_end = Token.now ∧
    (redraw n s inp).state.recreate_swapchain = true ∧
    (redraw n s inp).outcome = Outcome.flushOutOfDate := by
  cases b <;>
    simp [redraw, acquirePhase, flushPhase, rebuildStep, hflag, hacq, hflush, hw, hh, hi]

/-- Witness for C4 at a concrete tick. -/
theorem flush_out_of_date_installs_fallback_witness :
    0 < app0.images.length ∧
    ((redraw 4 app0 (okInput FlushResult.outOfDate)).state.previous_frame_end = Token.now ∧
     (redraw 4 app0 (okInput FlushResult.outOfDate)).state.recreate_swapchain = true ∧
     (redraw 4 app0 (okInput FlushResult.outOfDate)).outcome = Outcome.flushOutOfDate) :=
  ⟨by decide,
   flush_out_of_date_installs_fallback 4 app0 (okInput FlushResult.outOfDate) 0 false
     rfl (by decide) (by decide) rfl (by decide) rfl⟩

/-- C1 counterexample: on a tick whose flush fails with an error other than
out-of-date, the handler does NOT terminate: the outcome `flushErr` is
non-fatal (lines 300–303 print a diagnostic and return normally, so further
ticks are processed) and a replacement fallback token IS installed —
against the claim that the error propagates as a terminal failure with no
replacement token. -/
theorem flush_other_error_not_fatal_cex :
    (redraw 5 appChain3 (okInput FlushResult.otherErr)).outcome = Outcome.flushErr ∧
    (redraw 5 appChain3 (okInput FlushResult.otherErr)).outcome.fatal = false ∧
    (redraw 5 appChain3 (okInput FlushResult.otherErr)).state.previous_frame_end = Token.now :=
  ⟨rfl, rfl, rfl⟩

/-- C1 amended: if the chain fails with an error other than out-of-date, the
handler logs it, installs a fresh always-satisfied fallback token as the held
previous-frame token, and returns normally — the frame loop does not
terminate, and the submission had already been recorded. -/
theorem flush_other_error_continues (n : Nat) (s : App) (inp : RedrawInput)
    (i : Nat) (b : Bool)
    (hflag : s.recreate_swapchain = false)
    (hw : inp.windowExtent.w ≠ 0) (hh : inp.windowExtent.h ≠ 0)
    (hacq : inp.acquire = AcquireResult.ok i b)
    (hi : i < s.images.length)
    (hflush : inp.flush = FlushResult.otherErr) :
    (redraw n s inp).outcome = Outcome.flushErr ∧
    (redraw n s inp).outcome.fatal = false ∧
    (redraw n s inp).state.previous_frame_end = Token.now ∧
    (redraw n s inp).recorded.isSome = true := by
  cases b <;>
    simp [redraw, acquirePhase, flushPhase, rebuildStep, hflag, hacq, hflush, hw, hh, hi, Outcome.fatal]

/-- Witness for the amended C1 at a concrete tick. -/
theorem flush_other_error_continues_witness :
    0 < appChain3.images.length ∧
    ((redraw 5 appChain3 (okInput FlushResult.otherErr)).outcome = Outcome.flushErr ∧
     (redraw 5 appChain3 (okInput FlushResult.otherErr)).outcome.fatal = false ∧
     (redraw 5 appChain3 (okInput FlushResult.otherErr)).state.previous_frame_end = Token.now ∧
     (redraw 5 appChain3 (okInput FlushResult.otherErr)).recorded.isSome = true) :=
  ⟨by decide,
   flush_other_error_continues 5 appChain3 (okInput FlushResult.otherErr) 0 false
     rfl (by decide) (by decide) rfl (by decide) rfl⟩

/-- C2 counterexample: on a tick whose acquire returns `OutOfDate`, the
handler does return with no submission and with the rebuild marked pending,
but it does NOT install the fallback token: the held previous-frame token is
left exactly as it was (here, tick 3's chain token, not `sync::now`). -/
theorem acquire_out_of_date_no_fallback_cex :
    (redraw 6 appChain3 acqOODInput).recorded = none ∧
    (redraw 6 appChain3 acqOODInput).state.recreate_swapchain = true ∧
    (redraw 6 appChain3 acqOODInput).state.previous_frame_end = Token.chain 3 ∧
    Token.chain 3 ≠ Token.now :=
  ⟨rfl, rfl, rfl, by decide⟩

/-- C2 amended: on a tick whose acquire returns `OutOfDate`, the handler
records no submission, marks a rebuild as pending, and returns, leaving the
held previous-frame token unchanged — no fallback token is installed (the
token was never consumed on this path). -/
theorem acquire_out_of_date_leaves_token (n : Nat) (s : App) (inp : RedrawInput)
    (hflag : s.recreate_swapchain = false)
    (hw : inp.windowExtent.w ≠ 0) (hh : inp.windowExtent.h ≠ 0)
    (hacq : inp.acquire = AcquireResult.outOfDate) :
    (redraw n s inp).recorded = none ∧
    (redraw n s inp).state.recreate_swapchain = true ∧
    (redraw n s inp).state.previous_frame_end = s.previous_frame_end ∧
    (redraw n s inp).outcome = Outcome.retryAcquire := by
  simp [redraw, acquirePhase, flushPhase, rebuildStep, hflag, hacq, hw, hh]

/-- Witness for the amended C2 at a concrete tick. -/
theorem acquire_out_of_date_leaves_token_witness :
    appChain3.recreate_swapchain = false ∧
    ((redraw 6 appChain3 acqOODInput).recorded = none ∧
     (redraw 6 appChain3 acqOODInput).state.recreate_swapchain = true ∧
     (redraw 6 appChain3 acqOODInput).state.previous_frame_end = appChain3.previous_frame_end ∧
     (redraw 6 appChain3 acqOODInput).outcome = Outcome.retryAcquire) :=
  ⟨rfl,
   acquire_out_of_date_leaves_token 6 appChain3 acqOODInput
     rfl (by decide) (by decide) rfl⟩

/-- C3 counterexample: a tick that rebuilds into a swapchain whose extent
(640×480) still mismatches the window's current extent (800×600) ends with
`recreate_swapchain = false`: the clear at line 203 is unconditional and
nothing on the rebuild path reasserts the flag on a mismatch. -/
theorem rebuild_no_recheck_cex :
    (redraw 0 c3App c3Input).didRebuild = true ∧
    (redraw 0 c3App c3Input).state.swapchainExtent ≠ c3Input.windowExtent ∧
    (redraw 0 c3App c3Input).state.recreate_swapchain = false :=
  ⟨rfl, by decide, rfl⟩

/-- C3 amended: the pending flag is cleared after a successful rebuild,
unconditionally: the rebuild path never compares the rebuilt swapchain's
extent with the window's current extent and never reasserts the flag — a
single fire-and-forget clear, not a re-check loop (the tick's final state
carries whatever extent the provider produced, mismatching or not). -/
theorem rebuild_clears_flag (n : Nat) (s : App) (inp : RedrawInput) (i : Nat)
    (hflag : s.recreate_swapchain = true)
    (hw : inp.windowExtent.w ≠ 0) (hh : inp.windowExtent.h ≠ 0)
    (hrb : inp.rebuildOk = true)
    (hacq : inp.acquire = AcquireResult.ok i false)
    (hi : i < inp.rebuildNumImages)
    (hflush : inp.flush = FlushResult.ok) :
    (redraw n s inp).didRebuild = true ∧
    (redraw n s inp).state.recreate_swapchain = false ∧
    (redraw n s inp).state.swapchainExtent = inp.rebuildExtent := by
  simp [redraw, acquirePhase, flushPhase, rebuildStep, hflag, hrb, hacq, hflush, hw, hh, hi]

/-- Witness for the amended C3 at the mismatching concrete tick. -/
theorem rebuild_clears_flag_witness :
    c3App.recreate_swapchain = true ∧
    ((redraw 0 c3App c3Input).didRebuild = true ∧
     (redraw 0 c3App c3Input).state.recreate_swapchain = false ∧
     (redraw 0 c3App c3Input).state.swapchainExtent = c3Input.rebuildExtent) :=
  ⟨rfl,
   rebuild_clears_flag 0 c3App c3Input 0
     rfl (by decide) (by decide) rfl rfl (by decide) rfl⟩

/-- An in-range `getD` returns an element of the list. -/
theorem getD_mem {l : List Nat} {i : Nat} (d : Nat) (h : i < l.length) :
    l.getD i d ∈ l := by
  rw [List.getD_eq_getElem l d h]
  exact List.getElem_mem h

/-- The rebuild check preserves the images-generation invariant: a rebuilt
swapchain comes with images of its own (new) generation. -/
theorem rebuildStep_inv {s : App} {inp : RedrawInput} {s1 : App} {b : Bool}
    (hinv : imagesInv s) (h : rebuildStep s inp = some (s1, b)) :
    imagesInv s1 := by
  unfold rebuildStep at h
  split at h
  · split at h
    · injection h with h
      injection h with h1 h2
      subst h1
      intro g hg
      exact List.eq_of_mem_replicate hg
    · exact Option.noConfusion h
  · injection h with h
    injection h with h1 h2
    subst h1
    exact hinv

/-- The flush match always reports the submission it was given. -/
theorem flushPhase_recorded (n : Nat) (s2 : App) (dr : Bool) (sub : Submission)
    (fl : FlushResult) : (flushPhase n s2 dr sub fl).recorded = some sub := by
  cases fl <;> rfl

/-- The flush match never touches the image list. -/
theorem flushPhase_state_images (n : Nat) (s2 : App) (dr : Bool)
    (sub : Submission) (fl : FlushResult) :
    (flushPhase n s2 dr sub fl).state.images = s2.images := by
  cases fl <;> rfl

/-- The flush match never touches the swapchain generation. -/
theorem flushPhase_state_gen (n : Nat) (s2 : App) (dr : Bool)
    (sub : Submission) (fl : FlushResult) :
    (flushPhase n s2 dr sub fl).state.swapchainGen = s2.swapchainGen := by
  cases fl <;> rfl

/-- From acquisition onwards the image list and generation are fixed, so any
submission binds an image of the current generation. -/
theorem acquirePhase_inv (n : Nat) (s1 : App) (dr : Bool) (inp : RedrawInput)
    (hinv : imagesInv s1) :
    imagesInv (acquirePhase n s1 dr inp).state ∧
    ∀ sub, (acquirePhase n s1 dr inp).recorded = some sub →
      sub.imageGen = (acquirePhase n s1 dr inp).state.swapchainGen := by
  rcases hacq : inp.acquire with ⟨i, subopt⟩ | _ | _ <;>
    simp only [acquirePhase, hacq]
  · have hinv2 :
        imagesInv (if subopt = true then { s1 with recreate_swapchain := true } else s1) := by
      cases subopt <;> exact hinv
    by_cases hlt :
        i < (if subopt = true then { s1 with recreate_swapchain := true } else s1).images.length
    · rw [if_pos hlt]
      refine ⟨?_, ?_⟩
      · intro g hg
        rw [flushPhase_state_images] at hg
        rw [flushPhase_state_gen]
        exact hinv2 g hg
      · intro sub hsub
        rw [flushPhase_recorded] at hsub
        injection hsub with hsub
        subst hsub
        rw [flushPhase_state_gen]
        exact hinv2 _ (getD_mem 0 hlt)
    · rw [if_neg hlt]
      exact ⟨hinv2, fun sub h => Option.noConfusion h⟩
  · exact ⟨hinv, fun sub h => Option.noConfusion h⟩
  · exact ⟨hinv, fun sub h => Option.noConfusion h⟩

/-- C8: every submission that reaches the queue on a tick references only
images of the swapchain generation current at that tick's acquisition (the
rebuild, if any, completes before acquisition and the framebuffers are built
from the post-rebuild image list), and the tick preserves the invariant that
all stored images belong to the current generation. -/
theorem submission_uses_current_images (n : Nat) (s : App) (inp : RedrawInput)
    (hinv : imagesInv s) :
    imagesInv (redraw n s inp).state ∧
    ∀ sub, (redraw n s inp).recorded = some sub →
      sub.imageGen = (redraw n s inp).state.swapchainGen := by
  unfold redraw
  split
  · exact ⟨hinv, fun sub h => Option.noConfusion h⟩
  · split
    · exact ⟨hinv, fun sub h => Option.noConfusion h⟩
    · rename_i s1 b heq
      exact acquirePhase_inv n s1 b inp (rebuildStep_inv hinv heq)

/-- Witness for C8 on a concrete tick that rebuilds (generation 0 → 1) and
then submits image 0 of the new generation. -/
theorem submission_uses_current_images_witness :
    imagesInv c3App ∧
    imagesInv (redraw 0 c3App c3Input).state ∧
    ({ image_index := 0, imageGen := 1, commands := recordedCommands 0 } :
        Submission).imageGen = (redraw 0 c3App c3Input).state.swapchainGen :=
  ⟨by decide,
   (submission_uses_current_images 0 c3App c3Input (by decide)).1,
   (submission_uses_current_images 0 c3App c3Input (by decide)).2 _ rfl⟩

/-- The flush match passes the rebuild indicator through. -/
theorem flushPhase_didRebuild (n : Nat) (s2 : App) (dr : Bool) (sub : Submission)
    (fl : FlushResult) : (flushPhase n s2 dr sub fl).didRebuild = dr := by
  cases fl <;> rfl

/-- Acquisition and everything after it pass the rebuild indicator through. -/
theorem acquirePhase_didRebuild (n : Nat) (s1 : App) (dr : Bool)
    (inp : RedrawInput) : (acquirePhase n s1 dr inp).didRebuild = dr := by
  rcases hacq : inp.acquire with ⟨i, subopt⟩ | _ | _ <;>
    simp only [acquirePhase, hacq]
  repeat' split
  all_goals first
    | rw [flushPhase_didRebuild]
    | rfl

/-- A tick entered with the rebuild flag set, a nonzero extent and a working
provider performs the rebuild, whatever acquisition and flushing do after. -/
theorem didRebuild_of_pending (n : Nat) (s : App) (inp : RedrawInput)
    (hflag : s.recreate_swapchain = true)
    (hw : inp.windowExtent.w ≠ 0) (hh : inp.windowExtent.h ≠ 0)
    (hrb : inp.rebuildOk = true) :
    (redraw n s inp).didRebuild = true := by
  unfold redraw
  rw [if_neg (by simp [hw, hh])]
  unfold rebuildStep
  rw [if_pos hflag, if_pos hrb]
  exact acquirePhase_didRebuild n _ true inp

/-- C6: a tick that acquires successfully with `suboptimal = true` while no
resize is pending still records, submits and presents the current frame on
the just-acquired binding — the swapchain is not rebuilt within the tick and
its generation is untouched — and only raises the flag, so the rebuild runs
at the start of the next (nonzero, provider-working) tick. -/
theorem suboptimal_presents_then_rebuilds (n : Nat) (s : App) (inp : RedrawInput)
    (i : Nat)
    (hflag : s.recreate_swapchain = false)
    (hw : inp.windowExtent.w ≠ 0) (hh : inp.windowExtent.h ≠ 0)
    (hacq : inp.acquire = AcquireResult.ok i true)
    (hi : i < s.images.length)
    (hflush : inp.flush = FlushResult.ok) :
    (redraw n s inp).didRebuild = false ∧
    (redraw n s inp).state.swapchainGen = s.swapchainGen ∧
    (redraw n s inp).recorded =
      some { image_index := i, imageGen := s.images.getD i 0,
             commands := recordedCommands i } ∧
    (redraw n s inp).outcome = Outcome.flushed ∧
    (redraw n s inp).state.recreate_swapchain = true ∧
    ∀ inp2 : RedrawInput, inp2.windowExtent.w ≠ 0 → inp2.windowExtent.h ≠ 0 →
      inp2.rebuildOk = true →
      (redraw (n + 1) (redraw n s inp).state inp2).didRebuild = true := by
  have hred : redraw n s inp =
      { state := { s with recreate_swapchain := true,
                          previous_frame_end := Token.chain n },
        outcome := Outcome.flushed, didRebuild := false, acquireCalled := true,
        recorded := some { image_index := i, imageGen := s.images.getD i 0,
                           commands := recordedCommands i } } := by
    simp [redraw, acquirePhase, flushPhase, rebuildStep, hflag, hacq, hflush,
      hw, hh, hi]
  rw [hred]
  refine ⟨rfl, rfl, rfl, rfl, rfl, ?_⟩
  intro inp2 hw2 hh2 hrb2
  exact didRebuild_of_pending (n + 1) _ inp2 rfl hw2 hh2 hrb2

/-- Witness for C6 at a concrete suboptimal tick. -/
theorem suboptimal_presents_then_rebuilds_witness :
    app0.recreate_swapchain = false ∧ 0 < app0.images.length ∧
    ((redraw 2 app0 subOptInput).didRebuild = false ∧
     (redraw 2 app0 subOptInput).state.swapchainGen = app0.swapchainGen ∧
     (redraw 2 app0 subOptInput).recorded =
       some { image_index := 0, imageGen := app0.images.getD 0 0,
              commands := recordedCommands 0 } ∧
     (redraw 2 app0 subOptInput).outcome = Outcome.flushed ∧
     (redraw 2 app0 subOptInput).state.recreate_swapchain = true ∧
     ∀ inp2 : RedrawInput, inp2.windowExtent.w ≠ 0 → inp2.windowExtent.h ≠ 0 →
       inp2.rebuildOk = true →
       (redraw (2 + 1) (redraw 2 app0 subOptInput).state inp2).didRebuild = true) :=
  ⟨rfl, by decide,
   suboptimal_presents_then_rebuilds 2 app0 subOptInput 0 rfl (by decide)
     (by decide) rfl (by decide) rfl⟩

/-- The rebuild check never touches the held token. -/
theorem rebuildStep_token {s : App} {inp : RedrawInput} {s1 : App} {b : Bool}
    (h : rebuildStep s inp = some (s1, b)) :
    s1.previous_frame_end = s.previous_frame_end := by
  unfold rebuildStep at h
  split at h
  · split at h
    · injection h with h
      injection h with h1 h2
      subst h1
      rfl
    · exact Option.noConfusion h
  · injection h with h
    injection h with h1 h2
    subst h1
    rfl

/-- Every flush branch installs a fresh token: the tick's own chain token on
success, the fallback otherwise. -/
theorem flushPhase_token (n : Nat) (s2 : App) (dr : Bool) (sub : Submission)
    (fl : FlushResult) :
    (flushPhase n s2 dr sub fl).state.previous_frame_end = Token.chain n ∨
    (flushPhase n s2 dr sub fl).state.previous_frame_end = Token.now := by
  cases fl
  · exact Or.inl rfl
  · exact Or.inr rfl
  · exact Or.inr rfl

/-- From acquisition onwards: a tick that reaches submission installs a fresh
token; one that does not leaves the held token untouched. -/
theorem acquirePhase_token (m : Nat) (s1 : App) (dr : Bool) (inp : RedrawInput) :
    ((acquirePhase m s1 dr inp).recorded.isSome = true →
      (acquirePhase m s1 dr inp).state.previous_frame_end = Token.chain m ∨
      (acquirePhase m s1 dr inp).state.previous_frame_end = Token.now) ∧
    ((acquirePhase m s1 dr inp).recorded = none →
      (acquirePhase m s1 dr inp).state.previous_frame_end = s1.previous_frame_end) := by
  rcases hacq : inp.acquire with ⟨i, subopt⟩ | _ | _ <;>
    simp only [acquirePhase, hacq]
  · repeat' split
    all_goals first
      | (refine ⟨fun _ => flushPhase_token m _ dr _ inp.flush, fun hr => ?_⟩
         rw [flushPhase_recorded] at hr
         exact Option.noConfusion hr)
      | exact ⟨by simp, fun _ => rfl⟩
  · exact ⟨by simp, by simp⟩
  · exact ⟨by simp, by simp⟩

/-- Per-tick token discipline of the redraw handler. -/
theorem redraw_token_cases (m : Nat) (t : App) (inp : RedrawInput) :
    ((redraw m t inp).recorded.isSome = true →
      (redraw m t inp).state.previous_frame_end = Token.chain m ∨
      (redraw m t inp).state.previous_frame_end = Token.now) ∧
    ((redraw m t inp).recorded = none →
      (redraw m t inp).state.previous_frame_end = t.previous_frame_end) := by
  unfold redraw
  split
  · exact ⟨by simp, fun _ => rfl⟩
  · split
    · exact ⟨by simp, fun _ => rfl⟩
    · rename_i s1 dr heq
      refine ⟨(acquirePhase_token m s1 dr inp).1, fun hr => ?_⟩
      rw [(acquirePhase_token m s1 dr inp).2 hr]
      exact rebuildStep_token heq

/-- A failure-free, resize-free tick only swaps the held token for its own
chain token. -/
theorem redraw_goodTick (n : Nat) (s : App) (inp : RedrawInput)
    (hflag : s.recreate_swapchain = false) (h : goodTick s.images.length inp) :
    (redraw n s inp).state = { s with previous_frame_end := Token.chain n } := by
  obtain ⟨hw, hh, hflush, i, hi, hacq⟩ := h
  simp [redraw, acquirePhase, flushPhase, rebuildStep, hflag, hacq, hflush,
    hw, hh, hi]

/-- Over a failure-free resize-free run, the state is unchanged except that
the held token is the last tick's chain token. -/
theorem run_good (inps : List RedrawInput) (s : App) (n : Nat)
    (hflag : s.recreate_swapchain = false)
    (hgood : ∀ inp ∈ inps, goodTick s.images.length inp) :
    run s n inps =
      if inps.isEmpty then s
      else { s with previous_frame_end := Token.chain (n + inps.length - 1) } := by
  induction inps generalizing s n with
  | nil => rfl
  | cons a l ih =>
      have hstep := redraw_goodTick n s a hflag (hgood a (List.mem_cons_self a l))
      have hg2 : ∀ inp ∈ l, goodTick s.images.length inp :=
        fun inp hm => hgood inp (List.mem_cons_of_mem a hm)
      have hrun := ih { s with previous_frame_end := Token.chain n } (n + 1) hflag hg2
      simp only [run, hstep]
      rw [hrun]
      cases l with
      | nil => simp
      | cons b m =>
          have harith : n + 1 + (m.length + 1) - 1 = n + (m.length + 1 + 1) - 1 := by
            omega
          simp [List.length_cons, harith]

/-- C7: exactly one live completion token.  A tick that consumes the held
token (reaches submission) installs exactly one replacement on every
control-flow path — its own chain token on success, the fallback otherwise —
a tick that records no submission leaves the held token in place, and over
any failure-free resize-free run the token held after tick `n` is the one
produced by tick `n`'s own chain, never an earlier or later one. -/
theorem one_live_token (s : App) (n : Nat) (inps : List RedrawInput)
    (hflag : s.recreate_swapchain = false)
    (hgood : ∀ inp ∈ inps, goodTick s.images.length inp)
    (hne : inps ≠ []) :
    (run s n inps).previous_frame_end = Token.chain (n + inps.length - 1) ∧
    (∀ m t inp, ((redraw m t inp).recorded).isSome = true →
      (redraw m t inp).state.previous_frame_end = Token.chain m ∨
      (redraw m t inp).state.previous_frame_end = Token.now) ∧
    (∀ m t inp, (redraw m t inp).recorded = none →
      (redraw m t inp).state.previous_frame_end = t.previous_frame_end) := by
  refine ⟨?_, fun m t inp => (redraw_token_cases m t inp).1,
    fun m t inp => (redraw_token_cases m t inp).2⟩
  rw [run_good inps s n hflag hgood]
  cases inps with
  | nil => exact absurd rfl hne
  | cons a l => rfl

/-- Witness for C7 over a concrete two-tick failure-free run. -/
theorem one_live_token_witness :
    app0.recreate_swapchain = false ∧
    ((run app0 0 [okInput FlushResult.ok, okInput FlushResult.ok]).previous_frame_end =
       Token.chain (0 + [okInput FlushResult.ok, okInput FlushResult.ok].length - 1) ∧
     (∀ m t inp, ((redraw m t inp).recorded).isSome = true →
       (redraw m t inp).state.previous_frame_end = Token.chain m ∨
       (redraw m t inp).state.previous_frame_end = Token.now) ∧
     (∀ m t inp, (redraw m t inp).recorded = none →
       (redraw m t inp).state.previous_frame_end = t.previous_frame_end)) :=
  ⟨rfl,
   one_live_token app0 0 [okInput FlushResult.ok, okInput FlushResult.ok] rfl
     (by
       intro inp hm
       rcases List.mem_cons.mp hm with h | hm2
       · subst h
         exact ⟨by decide, by decide, rfl, 0, by decide, rfl⟩
       · rcases List.mem_cons.mp hm2 with h | hm3
         · subst h
           exact ⟨by decide, by decide, rfl, 0, by decide, rfl⟩
         · exact absurd hm3 (List.not_mem_nil inp))
     (by decide)⟩

/-- If a redraw tick turns the rebuild flag from clear to set, the tick saw an
out-of-date acquire, a suboptimal acquire, or an out-of-date flush. -/
theorem redraw_flag_raise (n : Nat) (s : App) (inp : RedrawInput)
    (h1 : s.recreate_swapchain = false)
    (h2 : (redraw n s inp).state.recreate_swapchain = true) :
    inp.acquire = AcquireResult.outOfDate ∨
    (∃ i, inp.acquire = AcquireResult.ok i true) ∨
    inp.flush = FlushResult.outOfDate := by
  unfold redraw at h2
  by_cases hz : inp.windowExtent.w = 0 ∨ inp.windowExtent.h = 0
  · rw [if_pos hz] at h2
    simp [h1] at h2
  · rw [if_neg hz] at h2
    unfold rebuildStep at h2
    rw [if_neg (by simp [h1])] at h2
    rcases hacq : inp.acquire with ⟨i, subopt⟩ | _ | _ <;>
      simp only [acquirePhase, hacq] at h2
    · cases subopt
      · simp only [if_false, ite_false, Bool.false_eq_true] at h2
        split at h2
        · rcases hfl : inp.flush with _ | _ | _ <;>
            simp only [flushPhase, hfl] at h2
          · simp [h1] at h2
          · exact Or.inr (Or.inr rfl)
          · simp [h1] at h2
        · simp [h1] at h2
      · exact Or.inr (Or.inl ⟨i, rfl⟩)
    · exact Or.inl rfl
    · simp [h1] at h2

/-- If a redraw tick turns the rebuild flag from set to clear, the tick
performed a rebuild. -/
theorem redraw_flag_drop (n : Nat) (s : App) (inp : RedrawInput)
    (h1 : s.recreate_swapchain = true)
    (h2 : (redraw n s inp).state.recreate_swapchain = false) :
    (redraw n s inp).didRebuild = true := by
  unfold redraw at h2 ⊢
  by_cases hz : inp.windowExtent.w = 0 ∨ inp.windowExtent.h = 0
  · rw [if_pos hz] at h2
    simp [h1] at h2
  · rw [if_neg hz] at h2 ⊢
    unfold rebuildStep at h2 ⊢
    rw [if_pos h1] at h2 ⊢
    cases hro : inp.rebuildOk
    · rw [if_neg (by simp [hro])] at h2
      simp [h1] at h2
    · rw [if_pos rfl]
      exact acquirePhase_didRebuild n _ true inp

/-- C9: the rebuild-pending flag is raised only by a `Resized` event, an
out-of-date acquire, a suboptimal acquire, or an out-of-date flush; it is
dropped only by a redraw tick that actually performed a successful swapchain
rebuild — hence once raised it persists across skipped and failed ticks until
a rebuild succeeds. -/
theorem flag_transitions (n : Nat) (s : App) (ev : WEvent) :
    (s.recreate_swapchain = false →
      (window_event n s ev).recreate_swapchain = true →
      ev = WEvent.resized ∨
      ∃ inp, ev = WEvent.redrawRequested inp ∧
        (inp.acquire = AcquireResult.outOfDate ∨
         (∃ i, inp.acquire = AcquireResult.ok i true) ∨
         inp.flush = FlushResult.outOfDate)) ∧
    (s.recreate_swapchain = true →
      (window_event n s ev).recreate_swapchain = false →
      ∃ inp, ev = WEvent.redrawRequested inp ∧ (redraw n s inp).didRebuild = true) := by
  constructor
  · intro h1 h2
    cases ev with
    | closeRequested =>
        simp only [window_event] at h2
        simp [h1] at h2
    | resized => exact Or.inl rfl
    | other =>
        simp only [window_event] at h2
        simp [h1] at h2
    | redrawRequested inp =>
        simp only [window_event] at h2
        exact Or.inr ⟨inp, rfl, redraw_flag_raise n s inp h1 h2⟩
  · intro h1 h2
    cases ev with
    | closeRequested =>
        simp only [window_event] at h2
        simp [h1] at h2
    | resized =>
        simp only [window_event] at h2
        exact Bool.noConfusion h2
    | other =>
        simp only [window_event] at h2
        simp [h1] at h2
    | redrawRequested inp =>
        simp only [window_event] at h2
        exact ⟨inp, rfl, redraw_flag_drop n s inp h1 h2⟩

/-- Witness for C9: a concrete out-of-date acquire raises the flag. -/
theorem flag_transitions_witness :
    app0.recreate_swapchain = false ∧
    (window_event 0 app0 (WEvent.redrawRequested acqOODInput)).recreate_swapchain = true ∧
    (WEvent.redrawRequested acqOODInput = WEvent.resized ∨
     ∃ inp, WEvent.redrawRequested acqOODInput = WEvent.redrawRequested inp ∧
       (inp.acquire = AcquireResult.outOfDate ∨
        (∃ i, inp.acquire = AcquireResult.ok i true) ∨
        inp.flush = FlushResult.outOfDate)) :=
  ⟨rfl, rfl,
   (flag_transitions 0 app0 (WEvent.redrawRequested acqOODInput)).1 rfl rfl⟩

end VulkanoTest
